import Mathlib

/-!
# MatmulTensorCoreStrategy: configuration defaults and the lowering script

A shallow embedding of
`compiler/src/iree/compiler/Codegen/TransformStrategies/GPU/MatmulTensorCoreStrategy.cpp`.

* `int64_t` members are `Int` (they are only copied and compared, never
  computed with), the `float` padding literals `0.0f` are recorded by their
  value `0`.
* The `llvm::cl` option globals are modelled by their initial value together
  with what the command line supplied, if anything.
* The transform-dialect builder `b` is a handle counter plus the list of calls
  issued on it, in order.
-/

namespace MatmulTensorCore

/-! ## Command-line options -/

/-- State of an `llvm::cl::list<int64_t>` after command-line parsing: the
`list_init` value and the elements parsed from the command line when the option
occurred there. -/
structure ClList where
  listInit : List Int
  parsed : Option (List Int)
  deriving DecidableEq, Repr

/-- Elements seen by `begin()`/`end()`: the parsed occurrence replaces the
initial value. -/
def ClList.elems (o : ClList) : List Int :=
  match o.parsed with
  | some vs => vs
  | none => o.listInit

/-- `cl::list::isDefaultAssigned()`: true until the option occurs on the command
line, whatever the value it occurs with. -/
def ClList.isDefaultAssigned (o : ClList) : Bool :=
  match o.parsed with
  | some _ => false
  | none => true

/-- State of an `llvm::cl::opt<T>` after command-line parsing: the `cl::init`
value and the value parsed from the command line when the option occurred. -/
structure ClOpt (α : Type) where
  init : α
  parsed : Option α
  deriving DecidableEq, Repr

/-- Current value of the option (its conversion to `T`). -/
def ClOpt.get {α : Type} (o : ClOpt α) : α :=
  match o.parsed with
  | some v => v
  | none => o.init

/-- `getDefault().getValue()`: the `cl::init` value. -/
def ClOpt.getDefault {α : Type} (o : ClOpt α) : α := o.init

/-- What the command line supplies for the seven `td-matmul-strategy-*`
options; `none` when the option does not occur. -/
structure CommandLine where
  blkSizes : Option (List Int)
  reducSize : Option Int
  numThreads : Option (List Int)
  numWarps : Option (List Int)
  useAsyncCopies : Option Bool
  useMmaSync : Option Bool
  pipelineDepth : Option Int
  deriving DecidableEq, Repr

/-- A command line on which none of the seven options occurs. -/
def CommandLine.none : CommandLine :=
  { blkSizes := Option.none, reducSize := Option.none, numThreads := Option.none,
    numWarps := Option.none, useAsyncCopies := Option.none, useMmaSync := Option.none,
    pipelineDepth := Option.none }

def clBlockTileSizes (cmd : CommandLine) : ClList :=
  { listInit := [128, 128, 1], parsed := cmd.blkSizes }

def clReductionTileSize (cmd : CommandLine) : ClOpt Int :=
  { init := 16, parsed := cmd.reducSize }

def clNumThreads (cmd : CommandLine) : ClList :=
  { listInit := [64, 2, 1], parsed := cmd.numThreads }

def clNumWarps (cmd : CommandLine) : ClList :=
  { listInit := [2, 2, 1], parsed := cmd.numWarps }

def clUseAsyncCopies (cmd : CommandLine) : ClOpt Bool :=
  { init := true, parsed := cmd.useAsyncCopies }

def clUseMmaSync (cmd : CommandLine) : ClOpt Bool :=
  { init := true, parsed := cmd.useMmaSync }

def clPipelineDepth (cmd : CommandLine) : ClOpt Int :=
  { init := 3, parsed := cmd.pipelineDepth }

/-! ## Configuration -/

/-- Data members of `MatmulStrategy` that this file reads or writes. -/
structure MatmulStrategy where
  blockTileSizes : List Int
  reductionTileSize : Int
  numThreads : List Int
  numWarps : List Int
  useAsyncCopies : Bool
  useMmaSync : Bool
  pipelineDepth : Int
  paddingValues : List Int
  paddingDimensions : List Int
  packingDimensions : List Int
  cliOptionsSpecified : Bool
  deriving DecidableEq, Repr

/-- Body of `MatmulStrategy::initDefaultValues`, run on the object `s` with the
option globals in the state the command line `cmd` left them in.
`cliOptionsSpecified` is only ever set, never cleared. -/
def initDefaultValues (cmd : CommandLine) (s : MatmulStrategy) : MatmulStrategy :=
  let blockTileSizes := (clBlockTileSizes cmd).elems
  let numThreads := (clNumThreads cmd).elems
  let numWarps := (clNumWarps cmd).elems
  let reductionTileSize := (clReductionTileSize cmd).get
  let useAsyncCopies := (clUseAsyncCopies cmd).get
  let useMmaSync := (clUseMmaSync cmd).get
  let pipelineDepth := (clPipelineDepth cmd).get
  let paddingValues : List Int := [0, 0, 0]
  let paddingDimensions : List Int := [0, 1, 2]
  let packingDimensions : List Int := [1, 1, 1]
  let cliOptionsSpecified :=
    if !(clBlockTileSizes cmd).isDefaultAssigned ||
        !(clNumThreads cmd).isDefaultAssigned || !(clNumWarps cmd).isDefaultAssigned ||
        reductionTileSize != (clReductionTileSize cmd).getDefault ||
        useAsyncCopies != (clUseAsyncCopies cmd).getDefault ||
        useMmaSync != (clUseMmaSync cmd).getDefault ||
        pipelineDepth != (clPipelineDepth cmd).getDefault then
      true
    else
      s.cliOptionsSpecified
  { blockTileSizes := blockTileSizes
    reductionTileSize := reductionTileSize
    numThreads := numThreads
    numWarps := numWarps
    useAsyncCopies := useAsyncCopies
    useMmaSync := useMmaSync
    pipelineDepth := pipelineDepth
    paddingValues := paddingValues
    paddingDimensions := paddingDimensions
    packingDimensions := packingDimensions
    cliOptionsSpecified := cliOptionsSpecified }

/-- A strategy object on which `initDefaultValues` has not run yet: no tunable
is populated and `cliOptionsSpecified` is still false. -/
def MatmulStrategy.blank : MatmulStrategy :=
  { blockTileSizes := [], reductionTileSize := 0, numThreads := [], numWarps := [],
    useAsyncCopies := false, useMmaSync := false, pipelineDepth := 0,
    paddingValues := [], paddingDimensions := [], packingDimensions := [],
    cliOptionsSpecified := false }

/-- The configuration `initDefaultValues` produces when no option is given. -/
def MatmulStrategy.defaults : MatmulStrategy :=
  initDefaultValues CommandLine.none MatmulStrategy.blank

/-! ## Derived mappings and member functions declared in the header -/

/-- Hardware axes a loop dimension can be bound to (the `Attribute`s stored in
`MappingInfo::threadMapping`). -/
inductive MappingAttr where
  | blockX | blockY | blockZ
  | warpX | warpY | warpZ
  | threadX | threadY | threadZ
  deriving DecidableEq, Repr

/-- The members of `MappingInfo` read by the lowering script. -/
structure MappingInfo where
  numThreads : List Int
  tileSizes : List Int
  threadMapping : List MappingAttr
  deriving DecidableEq, Repr

/-- The `MatmulStrategy` member functions the lowering script calls and whose
bodies live in `MatmulTensorCoreStrategy.h`: they are taken as parameters, so
every theorem below holds for any implementation of them. -/
structure StrategyMethods where
  validate : MatmulStrategy → Bool
  alignedRes : MatmulStrategy → Bool
  getBlockMapping : MatmulStrategy → MappingInfo
  computeMapping : MatmulStrategy → MappingInfo

/-- How the translation unit was compiled and run: `ndebug` is the `NDEBUG`
macro (it turns `assert` and `LLVM_DEBUG` into no-ops), `debugFlag` says whether
debug output for `iree-transform-builder` was requested at run time. -/
structure BuildMode where
  ndebug : Bool
  debugFlag : Bool
  deriving DecidableEq, Repr

/-! ## Builder: handles and the trace of issued calls -/

/-- A transform-dialect handle (an SSA `Value`), identified by a number. -/
abbrev Handle := Nat

/-- Output stream given to `MatmulStrategy::print`. -/
inductive Stream where
  | errs
  | dbgs
  deriving DecidableEq, Repr

/-- `transform::FailurePropagationMode`. -/
inductive FailurePropagationMode where
  | propagate
  | suppress
  deriving DecidableEq, Repr

/-- One call made by the lowering script, with the arguments it is made with
(the builder `b` is implicit). -/
inductive Op where
  | validate
  | print (os : Stream)
  | registerMatchCallbacksOp
  | unpackRegisteredMatchCallback (n : Nat) (name : String)
      (mode : FailurePropagationMode) (variantH : Handle)
  | buildTileFuseDistToForallWithTileSizes (isolatedParentOpH rootH : Handle)
      (opsToFuseH : List Handle) (tileSizes : List Int)
      (threadDimMapping : List MappingAttr)
  | populateWorkgroupCountRegionUsingNumThreadsSliceOp (forallH : Handle)
  | buildTileFuseToScfFor (variantH rootH : Handle) (opsToFuseH : List Handle)
      (tileSizes : List Int) (canonicalize : Bool)
  | buildPad (opH : Handle) (paddingValues paddingDimensions packingDimensions : List Int)
  | buildHoistOutputPaddingOp (variantH paddedMatmulOpH : Handle)
  | buildCanonicalizationAndEnablingTransforms (variantH : Handle)
  | buildDistributeMatmulCopies (variantH paddedMatmulOpH : Handle)
      (strategy : MatmulStrategy)
  | buildTileFuseDistToForallWithNumThreads (isolatedParentOpH rootH : Handle)
      (opsToFuseH : List Handle) (numThreads : List Int)
      (threadDimMapping : List MappingAttr)
  | buildMatmulVectorization (variantH lhsCopyOpH rhsCopyOpH copyBackOpH : Handle)
      (strategy : MatmulStrategy)
  | buildBufferize (variantH : Handle)
  | matchOp (target : Handle) (opName : String)
  | buildMapToBlockAndThreads (funcH : Handle) (numThreads numWarps : List Int)
  | eliminateGpuBarriersOp (funcH : Handle)
  | buildConvertToTensorCoreOp (funcH : Handle) (strategy : MatmulStrategy)
  | buildMultiBuffering (funcH : Handle) (strategy : MatmulStrategy)
  | buildConvertToAsyncCopies (funcH : Handle) (strategy : MatmulStrategy)
  | buildPipelineSharedMemoryCopies (funcH : Handle) (strategy : MatmulStrategy)
  | buildLowerVectorMasksAndCleanup (funcH : Handle)
  deriving DecidableEq, Repr

/-- Handles a call takes as arguments. -/
def Op.operands : Op → List Handle
  | .validate => []
  | .print _ => []
  | .registerMatchCallbacksOp => []
  | .unpackRegisteredMatchCallback _ _ _ variantH => [variantH]
  | .buildTileFuseDistToForallWithTileSizes p r fs _ _ => p :: r :: fs
  | .populateWorkgroupCountRegionUsingNumThreadsSliceOp f => [f]
  | .buildTileFuseToScfFor v r fs _ _ => v :: r :: fs
  | .buildPad h _ _ _ => [h]
  | .buildHoistOutputPaddingOp v p => [v, p]
  | .buildCanonicalizationAndEnablingTransforms v => [v]
  | .buildDistributeMatmulCopies v p _ => [v, p]
  | .buildTileFuseDistToForallWithNumThreads p r fs _ _ => p :: r :: fs
  | .buildMatmulVectorization v l r c _ => [v, l, r, c]
  | .buildBufferize v => [v]
  | .matchOp t _ => [t]
  | .buildMapToBlockAndThreads f _ _ => [f]
  | .eliminateGpuBarriersOp f => [f]
  | .buildConvertToTensorCoreOp f _ => [f]
  | .buildMultiBuffering f _ => [f]
  | .buildConvertToAsyncCopies f _ => [f]
  | .buildPipelineSharedMemoryCopies f _ => [f]
  | .buildLowerVectorMasksAndCleanup f => [f]

/-- Which callee a call goes to, arguments forgotten. -/
inductive Kind where
  | validate
  | print
  | registerMatchCallbacksOp
  | unpackRegisteredMatchCallback
  | buildTileFuseDistToForallWithTileSizes
  | populateWorkgroupCountRegionUsingNumThreadsSliceOp
  | buildTileFuseToScfFor
  | buildPad
  | buildHoistOutputPaddingOp
  | buildCanonicalizationAndEnablingTransforms
  | buildDistributeMatmulCopies
  | buildTileFuseDistToForallWithNumThreads
  | buildMatmulVectorization
  | buildBufferize
  | matchOp
  | buildMapToBlockAndThreads
  | eliminateGpuBarriersOp
  | buildConvertToTensorCoreOp
  | buildMultiBuffering
  | buildConvertToAsyncCopies
  | buildPipelineSharedMemoryCopies
  | buildLowerVectorMasksAndCleanup
  deriving DecidableEq, Repr

def Op.kind : Op → Kind
  | .validate => .validate
  | .print _ => .print
  | .registerMatchCallbacksOp => .registerMatchCallbacksOp
  | .unpackRegisteredMatchCallback _ _ _ _ => .unpackRegisteredMatchCallback
  | .buildTileFuseDistToForallWithTileSizes _ _ _ _ _ =>
      .buildTileFuseDistToForallWithTileSizes
  | .populateWorkgroupCountRegionUsingNumThreadsSliceOp _ =>
      .populateWorkgroupCountRegionUsingNumThreadsSliceOp
  | .buildTileFuseToScfFor _ _ _ _ _ => .buildTileFuseToScfFor
  | .buildPad _ _ _ _ => .buildPad
  | .buildHoistOutputPaddingOp _ _ => .buildHoistOutputPaddingOp
  | .buildCanonicalizationAndEnablingTransforms _ =>
      .buildCanonicalizationAndEnablingTransforms
  | .buildDistributeMatmulCopies _ _ _ => .buildDistributeMatmulCopies
  | .buildTileFuseDistToForallWithNumThreads _ _ _ _ _ =>
      .buildTileFuseDistToForallWithNumThreads
  | .buildMatmulVectorization _ _ _ _ _ => .buildMatmulVectorization
  | .buildBufferize _ => .buildBufferize
  | .matchOp _ _ => .matchOp
  | .buildMapToBlockAndThreads _ _ _ => .buildMapToBlockAndThreads
  | .eliminateGpuBarriersOp _ => .eliminateGpuBarriersOp
  | .buildConvertToTensorCoreOp _ _ => .buildConvertToTensorCoreOp
  | .buildMultiBuffering _ _ => .buildMultiBuffering
  | .buildConvertToAsyncCopies _ _ => .buildConvertToAsyncCopies
  | .buildPipelineSharedMemoryCopies _ _ => .buildPipelineSharedMemoryCopies
  | .buildLowerVectorMasksAndCleanup _ => .buildLowerVectorMasksAndCleanup

/-- A call together with the handles it returned. -/
structure Call where
  op : Op
  results : List Handle
  deriving DecidableEq, Repr

/-- What running a piece of the script from a given handle counter gives: the
value it computed (`none` when the process was aborted), the calls it issued in
order, and the next unused handle. -/
structure Outcome (α : Type) where
  value : Option α
  calls : List Call
  next : Handle

/-- A piece of the lowering script: a function of the next unused handle. -/
def Builder (α : Type) : Type := Handle → Outcome α

def Builder.pure {α : Type} (a : α) : Builder α :=
  fun n => { value := some a, calls := [], next := n }

/-- Sequencing: nothing runs after an abort. -/
def Builder.bind {α β : Type} (x : Builder α) (f : α → Builder β) : Builder β :=
  fun n =>
    match x n with
    | { value := none, calls := cs, next := k } => { value := none, calls := cs, next := k }
    | { value := some a, calls := cs, next := k } =>
      match f a k with
      | { value := v, calls := cs2, next := k2 } =>
        { value := v, calls := cs ++ cs2, next := k2 }

instance : Monad Builder where
  pure := Builder.pure
  bind := Builder.bind

/-- Process termination (a failed `assert`, or reading past the end of a
vector). -/
def Builder.abort {α : Type} : Builder α :=
  fun n => { value := none, calls := [], next := n }

/-- Issue a call that returns no handle. -/
def Builder.issue0 (op : Op) : Builder Unit :=
  fun n => { value := some (), calls := [{ op := op, results := [] }], next := n }

/-- Issue a call that returns one new handle. -/
def Builder.issue1 (op : Op) : Builder Handle :=
  fun n => { value := some n, calls := [{ op := op, results := [n] }], next := n + 1 }

/-- Issue a call that returns three new handles. -/
def Builder.issue3 (op : Op) : Builder (Handle × Handle × Handle) :=
  fun n => { value := some (n, n + 1, n + 2),
             calls := [{ op := op, results := [n, n + 1, n + 2] }], next := n + 3 }

/-- The C `assert` macro: a no-op under `NDEBUG`, otherwise aborts when the
condition is false. -/
def Builder.assert (mode : BuildMode) (cond : Bool) : Builder Unit :=
  if mode.ndebug then Builder.pure ()
  else if cond then Builder.pure ()
  else Builder.abort

/-- The `LLVM_DEBUG(X)` macro: `X` runs only in a build without `NDEBUG` and
with debug output requested. -/
def Builder.llvmDebug (mode : BuildMode) (x : Builder Unit) : Builder Unit :=
  if mode.ndebug then Builder.pure ()
  else if mode.debugFlag then x
  else Builder.pure ()

/-! ## Collaborators

The transformation library (`Common.h`, `GPU/Common.h`, the transform-dialect
ops) is not part of the sources. Each collaborator is a mock that records the
call and returns as many new handles as the caller reads from its result. -/

/-- The members of `TileToForallAndFuseAndDistributeResult` the script reads. -/
structure TileToForallAndFuseAndDistributeResult where
  forallH : Handle
  tiledOpH : Handle
  resultingFusedOpsHandles : List Handle
  deriving DecidableEq, Repr

/-- The member of the result of `buildTileFuseToScfFor` the script reads. -/
structure TileToScfForAndFuseResult where
  tiledOpH : Handle
  deriving DecidableEq, Repr

/-- Modelled from the spec: `b.create<RegisterMatchCallbacksOp>()`, an operation
of the graph-matching service; it returns no handle. -/
def registerMatchCallbacksOp : Builder Unit :=
  Builder.issue0 .registerMatchCallbacksOp

/-- Modelled from the spec: `unpackRegisteredMatchCallback<3>` of the
graph-matching service, returning three new handles for the named pattern. -/
def unpackRegisteredMatchCallback3 (name : String) (mode : FailurePropagationMode)
    (variantH : Handle) : Builder (Handle × Handle × Handle) :=
  Builder.issue3 (.unpackRegisteredMatchCallback 3 name mode variantH)

/-- Modelled from the spec: the tile+fuse+distribute operation of the
transformation library, by tile sizes. It returns a new handle for the parallel
construct, one for the tiled root and one per fused operation. -/
def buildTileFuseDistToForallWithTileSizes (isolatedParentOpH rootH : Handle)
    (opsToFuseH : List Handle) (tileSizes : List Int)
    (threadDimMapping : List MappingAttr) :
    Builder TileToForallAndFuseAndDistributeResult :=
  fun n =>
    let fused := (List.range opsToFuseH.length).map fun i => n + 2 + i
    { value := some { forallH := n, tiledOpH := n + 1, resultingFusedOpsHandles := fused },
      calls := [{ op := .buildTileFuseDistToForallWithTileSizes isolatedParentOpH rootH
                          opsToFuseH tileSizes threadDimMapping,
                  results := n :: (n + 1) :: fused }],
      next := n + 2 + opsToFuseH.length }

/-- Modelled from the spec: the tile+fuse+distribute operation of the
transformation library, by number of threads; same result shape as the
tile-size variant. -/
def buildTileFuseDistToForallWithNumThreads (isolatedParentOpH rootH : Handle)
    (opsToFuseH : List Handle) (numThreads : List Int)
    (threadDimMapping : List MappingAttr) :
    Builder TileToForallAndFuseAndDistributeResult :=
  fun n =>
    let fused := (List.range opsToFuseH.length).map fun i => n + 2 + i
    { value := some { forallH := n, tiledOpH := n + 1, resultingFusedOpsHandles := fused },
      calls := [{ op := .buildTileFuseDistToForallWithNumThreads isolatedParentOpH rootH
                          opsToFuseH numThreads threadDimMapping,
                  results := n :: (n + 1) :: fused }],
      next := n + 2 + opsToFuseH.length }

/-- Modelled from the spec:
`b.create<IREEPopulateWorkgroupCountRegionUsingNumThreadsSliceOp>(forallH)`,
which configures the iteration-count region of the parallel construct. -/
def populateWorkgroupCountRegionUsingNumThreadsSliceOp (forallH : Handle) : Builder Unit :=
  Builder.issue0 (.populateWorkgroupCountRegionUsingNumThreadsSliceOp forallH)

/-- Modelled from the spec: sequential tiling of the transformation library; it
returns a new handle for the tiled operation. -/
def buildTileFuseToScfFor (variantH rootH : Handle) (opsToFuseH : List Handle)
    (tileSizes : List Int) (canonicalize : Bool) : Builder TileToScfForAndFuseResult :=
  do
    let tiledOpH ← Builder.issue1
      (.buildTileFuseToScfFor variantH rootH opsToFuseH tileSizes canonicalize)
    pure { tiledOpH := tiledOpH }

/-- Modelled from the spec: the pad operation of the transformation library,
returning a new handle for the padded operation. -/
def buildPad (opH : Handle) (paddingValues paddingDimensions packingDimensions : List Int) :
    Builder Handle :=
  Builder.issue1 (.buildPad opH paddingValues paddingDimensions packingDimensions)

/-- Modelled from the spec: the hoist operation of the transformation library,
returning a new handle for the hoisted accumulator initialization. -/
def buildHoistOutputPaddingOp (variantH paddedMatmulOpH : Handle) : Builder Handle :=
  Builder.issue1 (.buildHoistOutputPaddingOp variantH paddedMatmulOpH)

/-- Modelled from the spec: canonicalization of the transformation library; it
returns no handle. -/
def buildCanonicalizationAndEnablingTransforms (variantH : Handle) : Builder Unit :=
  Builder.issue0 (.buildCanonicalizationAndEnablingTransforms variantH)

/-- Modelled from the spec: copy distribution, producing three copy-operation
handles (left operand, right operand, copy-back of the result). -/
def buildDistributeMatmulCopies (variantH paddedMatmulOpH : Handle)
    (strategy : MatmulStrategy) : Builder (Handle × Handle × Handle) :=
  Builder.issue3 (.buildDistributeMatmulCopies variantH paddedMatmulOpH strategy)

/-- Modelled from the spec: vectorization of the three copies and the compute;
the script reads no result from it. -/
def buildMatmulVectorization (variantH lhsCopyOpH rhsCopyOpH copyBackOpH : Handle)
    (strategy : MatmulStrategy) : Builder Unit :=
  Builder.issue0
    (.buildMatmulVectorization variantH lhsCopyOpH rhsCopyOpH copyBackOpH strategy)

/-- Modelled from the spec: materialization (bufferization), returning a new
variant handle. -/
def buildBufferize (variantH : Handle) : Builder Handle :=
  Builder.issue1 (.buildBufferize variantH)

/-- Modelled from the spec: `b.create<MatchOp>(target, opName)` of the
graph-matching service, returning a new handle. -/
def matchOp (target : Handle) (opName : String) : Builder Handle :=
  Builder.issue1 (.matchOp target opName)

/-- Modelled from the spec: map-to-grid of the transformation library,
returning a new function handle. -/
def buildMapToBlockAndThreads (funcH : Handle) (numThreads numWarps : List Int) :
    Builder Handle :=
  Builder.issue1 (.buildMapToBlockAndThreads funcH numThreads numWarps)

/-- Modelled from the spec: `b.create<EliminateGpuBarriersOp>(funcH)`, barrier
elimination, returning a new function handle. -/
def eliminateGpuBarriersOp (funcH : Handle) : Builder Handle :=
  Builder.issue1 (.eliminateGpuBarriersOp funcH)

/-- Modelled from the spec: convert-to-accelerator-op of the transformation
library, returning a new function handle. -/
def buildConvertToTensorCoreOp (funcH : Handle) (strategy : MatmulStrategy) :
    Builder Handle :=
  Builder.issue1 (.buildConvertToTensorCoreOp funcH strategy)

/-- Modelled from the spec: multi-buffering of the transformation library; the
script reads no result from it. -/
def buildMultiBuffering (funcH : Handle) (strategy : MatmulStrategy) : Builder Unit :=
  Builder.issue0 (.buildMultiBuffering funcH strategy)

/-- Modelled from the spec: convert-to-async-copy of the transformation library,
returning a new function handle. -/
def buildConvertToAsyncCopies (funcH : Handle) (strategy : MatmulStrategy) :
    Builder Handle :=
  Builder.issue1 (.buildConvertToAsyncCopies funcH strategy)

/-- Modelled from the spec: pipeline-copies of the transformation library; the
script reads no result from it. -/
def buildPipelineSharedMemoryCopies (funcH : Handle) (strategy : MatmulStrategy) :
    Builder Unit :=
  Builder.issue0 (.buildPipelineSharedMemoryCopies funcH strategy)

/-- Modelled from the spec: the final cleanup (lowering of vector masks and
canonicalization); it returns no handle. -/
def buildLowerVectorMasksAndCleanup (funcH : Handle) : Builder Unit :=
  Builder.issue0 (.buildLowerVectorMasksAndCleanup funcH)

/-! ## The lowering script -/

/-- The call `strategy.validate()`, recorded in the trace; its result comes from
the header implementation `m`. -/
def validate (m : StrategyMethods) (strategy : MatmulStrategy) : Builder Bool :=
  fun n => { value := some (m.validate strategy),
             calls := [{ op := .validate, results := [] }], next := n }

/-- The call `strategy.print(os)`: diagnostic output, no graph mutation. Only
the fact that it ran and its stream are recorded. -/
def print (os : Stream) : Builder Unit :=
  Builder.issue0 (.print os)

/-- The static function `buildMatmulStrategyBlockDistribution`. It returns the
fused fill handle (front of `resultingFusedOpsHandles`), the tiled matmul
handle, a null trailing handle and the handle of the parallel construct. -/
def buildMatmulStrategyBlockDistribution (m : StrategyMethods) (variantH : Handle)
    (strategy : MatmulStrategy) : Builder (Handle × Handle × Option Handle × Handle) :=
  do
    -- Step 1. Call the matcher.
    registerMatchCallbacksOp
    let (fillH, matmulH, _maybeTrailingH) ←
      unpackRegisteredMatchCallback3 "matmul" FailurePropagationMode.propagate variantH
    -- Step 2. Create the block/mapping tiling level and fuse.
    let blockMapping := m.getBlockMapping strategy
    let tileResult ← buildTileFuseDistToForallWithTileSizes variantH matmulH [fillH]
      blockMapping.tileSizes blockMapping.threadMapping
    -- Handle the workgroup count region.
    populateWorkgroupCountRegionUsingNumThreadsSliceOp tileResult.forallH
    match tileResult.resultingFusedOpsHandles with
    | front :: _ => pure (front, tileResult.tiledOpH, none, tileResult.forallH)
    | [] => Builder.abort

/-- The function `iree_compiler::gpu::buildMatmulTensorCoreStrategy`. -/
def buildMatmulTensorCoreStrategy (mode : BuildMode) (m : StrategyMethods)
    (variantH : Handle) (strategy : MatmulStrategy) : Builder Unit :=
  do
    let ok ← validate m strategy
    if !ok then
      print Stream.errs
      Builder.assert mode false
    Builder.llvmDebug mode (print Stream.dbgs)
    -- Step 1. Apply block-level part of the strategy, keeps everything fused.
    let (fillH, matmulH, _maybeTiledTrailingHBlock, _forall) ←
      buildMatmulStrategyBlockDistribution m variantH strategy
    -- Tile reduction loop.
    let tileSizes : List Int := [0, 0, strategy.reductionTileSize]
    let tileReductionResult ← buildTileFuseToScfFor variantH matmulH [] tileSizes false
    -- Step 2. Pad the matmul op.
    let paddedMatmulOpH ← buildPad tileReductionResult.tiledOpH strategy.paddingValues
      strategy.paddingDimensions strategy.packingDimensions
    -- Step 3. Hoist the padding of the output operand above the reduction loop.
    let mut fillOpH := fillH
    if !m.alignedRes strategy then
      fillOpH ← buildHoistOutputPaddingOp variantH paddedMatmulOpH
    buildCanonicalizationAndEnablingTransforms variantH
    -- Step 4. Distribute pad and copies: SIMT programming model.
    let (lhsCopyOpH, rhsCopyOpH, copyBackOpH) ←
      buildDistributeMatmulCopies variantH paddedMatmulOpH strategy
    -- Step 5. Distribute to warps: SIMD programming model.
    let computeMapping := m.computeMapping strategy
    let _ ← buildTileFuseDistToForallWithNumThreads variantH paddedMatmulOpH []
      computeMapping.numThreads computeMapping.threadMapping
    let _ ← buildTileFuseDistToForallWithNumThreads variantH fillOpH []
      computeMapping.numThreads computeMapping.threadMapping
    -- Step 6. Rank-reduce and vectorize.
    buildMatmulVectorization variantH lhsCopyOpH rhsCopyOpH copyBackOpH strategy
    -- Step 7. Bufferize and drop HAL descriptor from memref ops.
    let variantH ← buildBufferize variantH
    -- Step 8. Post-bufferization mapping to blocks and threads.
    let mut funcH ← matchOp variantH "func.func"
    funcH ← buildMapToBlockAndThreads funcH strategy.numThreads strategy.numWarps
    funcH ← eliminateGpuBarriersOp funcH
    -- Step 9. Convert to tensor core ops.
    funcH ← buildConvertToTensorCoreOp funcH strategy
    if strategy.useAsyncCopies then
      -- Step 10. Multi-buffering.
      if strategy.pipelineDepth > 1 then
        buildMultiBuffering funcH strategy
      -- Step 11. Convert to async copies.
      funcH ← buildConvertToAsyncCopies funcH strategy
      -- Step 12. Pipeline shared memory copies.
      if strategy.pipelineDepth > 1 then
        buildPipelineSharedMemoryCopies funcH strategy
    -- Step 13. Late lowerings and cleanups.
    buildLowerVectorMasksAndCleanup funcH

/-- The calls issued by one run of the lowering script, in order. -/
def issuedCalls (mode : BuildMode) (m : StrategyMethods) (variantH : Handle)
    (strategy : MatmulStrategy) (next : Handle) : List Call :=
  (buildMatmulTensorCoreStrategy mode m variantH strategy next).calls

/-- Whether the run reached the end of the script (no abort). -/
def completes (mode : BuildMode) (m : StrategyMethods) (variantH : Handle)
    (strategy : MatmulStrategy) (next : Handle) : Bool :=
  (buildMatmulTensorCoreStrategy mode m variantH strategy next).value.isSome

/-- Modelled from the spec: `MatmulStrategy::validate`, whose body is in the
header. It succeeds iff the tile-size vectors are non-empty, the reduction tile
size is positive and the pipeline depth is non-negative. -/
def specValidate (s : MatmulStrategy) : Bool :=
  !s.blockTileSizes.isEmpty && !s.numThreads.isEmpty && !s.numWarps.isEmpty &&
    decide (0 < s.reductionTileSize) && decide (0 ≤ s.pipelineDepth)

/-- Sample header implementation used to instantiate the theorems at concrete
inputs: `validate` is `specValidate`; the result alignment, which depends on the
captured problem size, is given by the flag `aligned`; the block mapping tiles
by `blockTileSizes` and the compute mapping distributes over `numWarps`. -/
def sampleMethods (aligned : Bool) : StrategyMethods :=
  { validate := specValidate
    alignedRes := fun _ => aligned
    getBlockMapping := fun s =>
      { numThreads := [], tileSizes := s.blockTileSizes,
        threadMapping := [MappingAttr.blockX, MappingAttr.blockY, MappingAttr.blockZ] }
    computeMapping := fun s =>
      { numThreads := s.numWarps, tileSizes := [],
        threadMapping := [MappingAttr.warpX, MappingAttr.warpY, MappingAttr.warpZ] } }

/-! ## Reading a trace -/

/-- Whether a callee is a transformation step: `validate` and `print` only
inspect the configuration, every other call is a transformation. -/
def Kind.isTransformation : Kind → Bool
  | .validate => false
  | .print => false
  | _ => true

/-- The three pipelining collaborators (steps 10 to 12). -/
def Kind.isPipelining : Kind → Bool
  | .buildMultiBuffering => true
  | .buildConvertToAsyncCopies => true
  | .buildPipelineSharedMemoryCopies => true
  | _ => false

/-- Callees of a trace, in order. -/
def kinds (tr : List Call) : List Kind := tr.map fun c => c.op.kind

/-- The transformation steps of a trace, in order. -/
def transformationCalls (tr : List Call) : List Call :=
  tr.filter fun c => c.op.kind.isTransformation

/-- The pipelining calls of a trace, in order. -/
def pipeliningCalls (tr : List Call) : List Call :=
  tr.filter fun c => c.op.kind.isPipelining

/-- The calls of a trace that go to callee `k`, in order. -/
def callsOfKind (k : Kind) (tr : List Call) : List Call :=
  tr.filter fun c => c.op.kind == k

/-- The calls issued strictly before the first call to `k`. -/
def callsBefore (k : Kind) (tr : List Call) : List Call :=
  tr.takeWhile fun c => c.op.kind != k

/-- The calls issued strictly after the first call to `k`. -/
def callsAfter (k : Kind) (tr : List Call) : List Call :=
  (tr.dropWhile fun c => c.op.kind != k).drop 1

/-- The `i`-th handle returned by the first call to `k`. -/
def resultOf (k : Kind) (i : Nat) (tr : List Call) : Option Handle :=
  (tr.find? fun c => c.op.kind == k).bind fun c => c.results.get? i

/-- Every handle returned by some call of the trace. -/
def handlesReturned (tr : List Call) : List Handle :=
  tr.flatMap fun c => c.results

/-- The `rootH` argument of each warp-level distribution
(`buildTileFuseDistToForallWithNumThreads`), in order. -/
def warpDistributionRoots (tr : List Call) : List Handle :=
  tr.filterMap fun c =>
    match c.op with
    | .buildTileFuseDistToForallWithNumThreads _ rootH _ _ _ => some rootH
    | _ => none

/-- The default configuration with the reduction tile size set to zero, which
`specValidate` rejects. -/
def invalidSample : MatmulStrategy :=
  { MatmulStrategy.defaults with reductionTileSize := 0 }

/-- A build with assertions enabled and no debug output. -/
def assertsBuild : BuildMode := { ndebug := false, debugFlag := false }

/-- A build with `NDEBUG` defined. -/
def releaseBuild : BuildMode := { ndebug := true, debugFlag := false }

/-- A command line that gives the block tile sizes explicitly, with exactly
their default value. -/
def explicitDefaultBlkSizes : CommandLine :=
  { CommandLine.none with blkSizes := some [128, 128, 1] }

/-- A command line that overrides two tunables. -/
def sampleOverrides : CommandLine :=
  { CommandLine.none with blkSizes := some [64, 64, 1], pipelineDepth := some 2 }

/-! ## Closed form of a run

The three lists below spell out, call by call, what a run of the script issues.
They are a proof device: `run_closed_form` shows that the script produces exactly
their concatenation around the `buildBufferize` call. -/

/-- Closed form of the calls that precede the first transformation: `validate`,
the `print` to `errs` when validation failed, the debug `print` when debug
output is active. -/
def diagnosticCalls (valid debugOutput : Bool) : List Call :=
  [{ op := .validate, results := [] }] ++
  (if valid then [] else [{ op := .print .errs, results := [] }]) ++
  (if debugOutput then [{ op := .print .dbgs, results := [] }] else [])

/-- The first handle allocated after the optional hoist, in a run that starts
at handle `n`. -/
def handleAfterHoist (aligned : Bool) (n : Handle) : Handle :=
  if aligned then n + 8 else n + 9

/-- Closed form of steps 1 to 6 (match to vectorization) of a run that starts
at handle `n`; `aligned` is the value of `alignedRes()`. -/
def tensorPhaseCalls (m : StrategyMethods) (v : Handle) (s : MatmulStrategy)
    (aligned : Bool) (n : Handle) : List Call :=
  [{ op := .registerMatchCallbacksOp, results := [] },
   { op := .unpackRegisteredMatchCallback 3 "matmul" .propagate v,
     results := [n, n + 1, n + 2] },
   { op := .buildTileFuseDistToForallWithTileSizes v (n + 1) [n]
             (m.getBlockMapping s).tileSizes (m.getBlockMapping s).threadMapping,
     results := [n + 3, n + 4, n + 5] },
   { op := .populateWorkgroupCountRegionUsingNumThreadsSliceOp (n + 3), results := [] },
   { op := .buildTileFuseToScfFor v (n + 4) [] [0, 0, s.reductionTileSize] false,
     results := [n + 6] },
   { op := .buildPad (n + 6) s.paddingValues s.paddingDimensions s.packingDimensions,
     results := [n + 7] }] ++
  (if aligned then []
   else [{ op := .buildHoistOutputPaddingOp v (n + 7), results := [n + 8] }]) ++
  [{ op := .buildCanonicalizationAndEnablingTransforms v, results := [] },
   { op := .buildDistributeMatmulCopies v (n + 7) s,
     results := [handleAfterHoist aligned n, handleAfterHoist aligned n + 1,
                 handleAfterHoist aligned n + 2] },
   { op := .buildTileFuseDistToForallWithNumThreads v (n + 7) []
             (m.computeMapping s).numThreads (m.computeMapping s).threadMapping,
     results := [handleAfterHoist aligned n + 3, handleAfterHoist aligned n + 4] },
   { op := .buildTileFuseDistToForallWithNumThreads v
             (if aligned then n + 5 else n + 8) []
             (m.computeMapping s).numThreads (m.computeMapping s).threadMapping,
     results := [handleAfterHoist aligned n + 5, handleAfterHoist aligned n + 6] },
   { op := .buildMatmulVectorization v (handleAfterHoist aligned n)
             (handleAfterHoist aligned n + 1) (handleAfterHoist aligned n + 2) s,
     results := [] }]

/-- Closed form of steps 8 to 13 (function match to cleanup), issued on the
variant handle `w` returned by `buildBufferize`; `async` is `useAsyncCopies` and
`deep` is `pipelineDepth > 1`. -/
def bufferPhaseCalls (s : MatmulStrategy) (async deep : Bool) (w : Handle) : List Call :=
  [{ op := .matchOp w "func.func", results := [w + 1] },
   { op := .buildMapToBlockAndThreads (w + 1) s.numThreads s.numWarps, results := [w + 2] },
   { op := .eliminateGpuBarriersOp (w + 2), results := [w + 3] },
   { op := .buildConvertToTensorCoreOp (w + 3) s, results := [w + 4] }] ++
  (if async then
    (if deep then [{ op := .buildMultiBuffering (w + 4) s, results := [] }] else []) ++
    [{ op := .buildConvertToAsyncCopies (w + 4) s, results := [w + 5] }] ++
    (if deep then [{ op := .buildPipelineSharedMemoryCopies (w + 5) s, results := [] }]
     else [])
   else []) ++
  [{ op := .buildLowerVectorMasksAndCleanup (if async then w + 5 else w + 4),
     results := [] }]

/-! ## Closed form of a run: proofs -/

/-- The block-distribution phase always completes: it issues the match, the
block tiling with the fill fused and the workgroup-count call, and returns the
fused fill handle, the tiled matmul handle and the parallel construct. -/
theorem blockDistribution_run (m : StrategyMethods) (v n : Handle) (s : MatmulStrategy) :
    buildMatmulStrategyBlockDistribution m v s n =
      { value := some (n + 5, n + 4, none, n + 3)
        calls :=
          [{ op := .registerMatchCallbacksOp, results := [] },
           { op := .unpackRegisteredMatchCallback 3 "matmul" .propagate v,
             results := [n, n + 1, n + 2] },
           { op := .buildTileFuseDistToForallWithTileSizes v (n + 1) [n]
                     (m.getBlockMapping s).tileSizes (m.getBlockMapping s).threadMapping,
             results := [n + 3, n + 4, n + 5] },
           { op := .populateWorkgroupCountRegionUsingNumThreadsSliceOp (n + 3),
             results := [] }]
        next := n + 6 } := by
  simp [buildMatmulStrategyBlockDistribution, bind, Builder.bind, pure, Builder.pure,
    Builder.issue0, Builder.issue3, registerMatchCallbacksOp, unpackRegisteredMatchCallback3,
    buildTileFuseDistToForallWithTileSizes,
    populateWorkgroupCountRegionUsingNumThreadsSliceOp, List.range_succ, List.range_zero]

/-- A run that is not stopped by the validity assertion completes, and issues
the diagnostic calls, the tensor phase, `buildBufferize` and the buffer phase. -/
theorem run_closed_form (mode : BuildMode) (m : StrategyMethods) (v n : Handle)
    (s : MatmulStrategy) (hrun : m.validate s = true ∨ mode.ndebug = true) :
    buildMatmulTensorCoreStrategy mode m v s n =
      { value := some ()
        calls :=
          diagnosticCalls (m.validate s) (!mode.ndebug && mode.debugFlag) ++
          tensorPhaseCalls m v s (m.alignedRes s) n ++
          [{ op := .buildBufferize v,
             results := [handleAfterHoist (m.alignedRes s) n + 7] }] ++
          bufferPhaseCalls s s.useAsyncCopies (decide (s.pipelineDepth > 1))
            (handleAfterHoist (m.alignedRes s) n + 7)
        next := handleAfterHoist (m.alignedRes s) n +
          (if s.useAsyncCopies then 13 else 12) } := by
  obtain ⟨nd, df⟩ := mode
  have hrun2 : m.validate s = true ∨ nd = true := hrun
  cases hv : m.validate s <;> cases nd <;> simp [hv] at hrun2 <;>
  cases df <;> cases ha : m.alignedRes s <;> cases hu : s.useAsyncCopies <;>
  by_cases hp : s.pipelineDepth > 1 <;>
  simp [buildMatmulTensorCoreStrategy, blockDistribution_run,
    bind, Builder.bind, pure, Builder.pure, validate, hv, ha, hu, hp, Builder.llvmDebug,
    Builder.assert, print, Builder.issue0, Builder.issue1, Builder.issue3,
    buildTileFuseDistToForallWithNumThreads, buildTileFuseToScfFor, buildPad,
    buildHoistOutputPaddingOp, buildCanonicalizationAndEnablingTransforms,
    buildDistributeMatmulCopies, buildMatmulVectorization, buildBufferize, matchOp,
    buildMapToBlockAndThreads, eliminateGpuBarriersOp, buildConvertToTensorCoreOp,
    buildMultiBuffering, buildConvertToAsyncCopies, buildPipelineSharedMemoryCopies,
    buildLowerVectorMasksAndCleanup, diagnosticCalls, tensorPhaseCalls, bufferPhaseCalls,
    handleAfterHoist]

/-- The calls of a run on a valid configuration, in closed form. -/
theorem issuedCalls_closed_form (mode : BuildMode) (m : StrategyMethods) (v n : Handle)
    (s : MatmulStrategy) (hv : m.validate s = true) :
    issuedCalls mode m v s n =
      diagnosticCalls true (!mode.ndebug && mode.debugFlag) ++
      tensorPhaseCalls m v s (m.alignedRes s) n ++
      [{ op := .buildBufferize v,
         results := [handleAfterHoist (m.alignedRes s) n + 7] }] ++
      bufferPhaseCalls s s.useAsyncCopies (decide (s.pipelineDepth > 1))
        (handleAfterHoist (m.alignedRes s) n + 7) := by
  rw [issuedCalls, run_closed_form mode m v n s (Or.inl hv), hv]

/-- A run on a valid configuration reaches the end of the script. -/
theorem completes_of_valid (mode : BuildMode) (m : StrategyMethods) (v n : Handle)
    (s : MatmulStrategy) (hv : m.validate s = true) :
    completes mode m v s n = true := by
  rw [completes, run_closed_form mode m v n s (Or.inl hv)]
  rfl

/-- With assertions enabled, a run on an invalid configuration is aborted right
after `validate` and the diagnostic `print`: no transformation is issued. -/
theorem invalid_run_aborts (m : StrategyMethods) (v n : Handle) (s : MatmulStrategy)
    (df : Bool) (hv : m.validate s = false) :
    buildMatmulTensorCoreStrategy { ndebug := false, debugFlag := df } m v s n =
      { value := none,
        calls := [{ op := .validate, results := [] }, { op := .print .errs, results := [] }],
        next := n } := by
  simp [buildMatmulTensorCoreStrategy, bind, Builder.bind, pure, Builder.pure, validate, hv,
    Builder.assert, Builder.abort, print, Builder.issue0]

/-- Membership from a failed Boolean search. -/
theorem not_mem_of_elem_eq_false {α : Type} [BEq α] [LawfulBEq α] {a : α} {l : List α}
    (h : List.elem a l = false) : a ∉ l := by
  intro hm
  rw [List.elem_eq_true_of_mem hm] at h
  exact Bool.noConfusion h

/-- The hoist shifts later handles by at most one. -/
theorem handleAfterHoist_bounds (aligned : Bool) (n : Handle) :
    n + 8 ≤ handleAfterHoist aligned n ∧ handleAfterHoist aligned n ≤ n + 9 := by
  cases aligned <;> simp [handleAfterHoist]

/-- On a valid configuration the calls after `buildBufferize` are the buffer
phase, and the handles returned before it are those of the tensor phase. -/
theorem sections_around_bufferize (mode : BuildMode) (m : StrategyMethods) (v n : Handle)
    (s : MatmulStrategy) (hv : m.validate s = true) :
    callsAfter .buildBufferize (issuedCalls mode m v s n) =
      bufferPhaseCalls s s.useAsyncCopies (decide (s.pipelineDepth > 1))
        (handleAfterHoist (m.alignedRes s) n + 7) ∧
    handlesReturned (callsBefore .buildBufferize (issuedCalls mode m v s n)) =
      handlesReturned (tensorPhaseCalls m v s (m.alignedRes s) n) := by
  rw [issuedCalls_closed_form mode m v n s hv]
  cases (!mode.ndebug && mode.debugFlag) <;> cases m.alignedRes s <;>
    cases s.useAsyncCopies <;> cases decide (s.pipelineDepth > 1) <;> exact ⟨rfl, rfl⟩

/-- Every handle returned during the tensor phase lies between the first
handle of the run and the one `buildBufferize` returns. -/
theorem tensorPhase_handles_bounded (m : StrategyMethods) (v n : Handle)
    (s : MatmulStrategy) (aligned : Bool) :
    ∀ h ∈ handlesReturned (tensorPhaseCalls m v s aligned n),
      n ≤ h ∧ h < handleAfterHoist aligned n + 7 := by
  cases aligned <;>
    simp [handlesReturned, tensorPhaseCalls, handleAfterHoist] <;>
    simp only [Handle] at * <;> omega

/-- Every operand of a buffer-phase call is the variant handle returned by
`buildBufferize` or a handle allocated after it. -/
theorem bufferPhase_operands_bounded (s : MatmulStrategy) (async deep : Bool) (w : Handle) :
    ∀ c ∈ bufferPhaseCalls s async deep w, ∀ h ∈ c.op.operands, w ≤ h := by
  cases async <;> cases deep <;> simp [bufferPhaseCalls, Op.operands]

/-! ## Configuration defaults (C5, C6, C7) -/

/-- C5: with no option on the command line and a fresh object,
`initDefaultValues` yields the compiled-in defaults with `cliOptionsSpecified`
false; for every command line the padding members are the fixed triples, every
option that occurs on the command line gives its tunable the supplied value and
every option that does not occur gives it the compiled-in default. -/
theorem initDefaultValues_populates_tunables (cmd : CommandLine) (s0 : MatmulStrategy) :
    (s0.cliOptionsSpecified = false →
      initDefaultValues CommandLine.none s0 =
        { blockTileSizes := [128, 128, 1], reductionTileSize := 16,
          numThreads := [64, 2, 1], numWarps := [2, 2, 1],
          useAsyncCopies := true, useMmaSync := true, pipelineDepth := 3,
          paddingValues := [0, 0, 0], paddingDimensions := [0, 1, 2],
          packingDimensions := [1, 1, 1], cliOptionsSpecified := false }) ∧
    ((initDefaultValues cmd s0).paddingValues = [0, 0, 0] ∧
      (initDefaultValues cmd s0).paddingDimensions = [0, 1, 2] ∧
      (initDefaultValues cmd s0).packingDimensions = [1, 1, 1]) ∧
    ((∀ x, cmd.blkSizes = some x → (initDefaultValues cmd s0).blockTileSizes = x) ∧
      (∀ x, cmd.reducSize = some x → (initDefaultValues cmd s0).reductionTileSize = x) ∧
      (∀ x, cmd.numThreads = some x → (initDefaultValues cmd s0).numThreads = x) ∧
      (∀ x, cmd.numWarps = some x → (initDefaultValues cmd s0).numWarps = x) ∧
      (∀ x, cmd.useAsyncCopies = some x → (initDefaultValues cmd s0).useAsyncCopies = x) ∧
      (∀ x, cmd.useMmaSync = some x → (initDefaultValues cmd s0).useMmaSync = x) ∧
      (∀ x, cmd.pipelineDepth = some x → (initDefaultValues cmd s0).pipelineDepth = x)) ∧
    ((cmd.blkSizes = none → (initDefaultValues cmd s0).blockTileSizes = [128, 128, 1]) ∧
      (cmd.reducSize = none → (initDefaultValues cmd s0).reductionTileSize = 16) ∧
      (cmd.numThreads = none → (initDefaultValues cmd s0).numThreads = [64, 2, 1]) ∧
      (cmd.numWarps = none → (initDefaultValues cmd s0).numWarps = [2, 2, 1]) ∧
      (cmd.useAsyncCopies = none → (initDefaultValues cmd s0).useAsyncCopies = true) ∧
      (cmd.useMmaSync = none → (initDefaultValues cmd s0).useMmaSync = true) ∧
      (cmd.pipelineDepth = none → (initDefaultValues cmd s0).pipelineDepth = 3)) := by
  refine ⟨?_, ⟨rfl, rfl, rfl⟩, ⟨?_, ?_, ?_, ?_, ?_, ?_, ?_⟩, ⟨?_, ?_, ?_, ?_, ?_, ?_, ?_⟩⟩
  · intro h0
    simp [initDefaultValues, CommandLine.none, clBlockTileSizes, clReductionTileSize,
      clNumThreads, clNumWarps, clUseAsyncCopies, clUseMmaSync, clPipelineDepth,
      ClList.elems, ClList.isDefaultAssigned, ClOpt.get, ClOpt.getDefault, h0]
  any_goals
    intro x h
    simp [initDefaultValues, clBlockTileSizes, clReductionTileSize,
      clNumThreads, clNumWarps, clUseAsyncCopies, clUseMmaSync, clPipelineDepth,
      ClList.elems, ClOpt.get, h]
  all_goals
    intro h
    simp [initDefaultValues, clBlockTileSizes, clReductionTileSize,
      clNumThreads, clNumWarps, clUseAsyncCopies, clUseMmaSync, clPipelineDepth,
      ClList.elems, ClOpt.get, h]

/-- Witness of C5 on a fresh object, for the empty command line and for one that
overrides the block tile sizes and the pipeline depth. -/
theorem initDefaultValues_populates_tunables_witness :
    MatmulStrategy.blank.cliOptionsSpecified = false ∧
    initDefaultValues CommandLine.none MatmulStrategy.blank =
      { blockTileSizes := [128, 128, 1], reductionTileSize := 16,
        numThreads := [64, 2, 1], numWarps := [2, 2, 1],
        useAsyncCopies := true, useMmaSync := true, pipelineDepth := 3,
        paddingValues := [0, 0, 0], paddingDimensions := [0, 1, 2],
        packingDimensions := [1, 1, 1], cliOptionsSpecified := false } ∧
    (initDefaultValues sampleOverrides MatmulStrategy.blank).blockTileSizes = [64, 64, 1] ∧
    (initDefaultValues sampleOverrides MatmulStrategy.blank).pipelineDepth = 2 ∧
    (initDefaultValues sampleOverrides MatmulStrategy.blank).numWarps = [2, 2, 1] :=
  ⟨rfl,
   (initDefaultValues_populates_tunables sampleOverrides MatmulStrategy.blank).1 rfl,
   (initDefaultValues_populates_tunables sampleOverrides MatmulStrategy.blank).2.2.1.1
     [64, 64, 1] rfl,
   (initDefaultValues_populates_tunables sampleOverrides
     MatmulStrategy.blank).2.2.1.2.2.2.2.2.2 2 rfl,
   (initDefaultValues_populates_tunables sampleOverrides
     MatmulStrategy.blank).2.2.2.2.2.2.1 rfl⟩

/-- C6: overriding any single one of the seven tunables with a value different
from its compiled-in default, the other options being absent from the command
line, leaves `cliOptionsSpecified` true. -/
theorem single_override_sets_cliOptionsSpecified (s0 : MatmulStrategy) :
    (∀ x : List Int, x ≠ [128, 128, 1] →
      (initDefaultValues { CommandLine.none with blkSizes := some x } s0).cliOptionsSpecified
        = true) ∧
    (∀ x : List Int, x ≠ [64, 2, 1] →
      (initDefaultValues { CommandLine.none with numThreads := some x } s0).cliOptionsSpecified
        = true) ∧
    (∀ x : List Int, x ≠ [2, 2, 1] →
      (initDefaultValues { CommandLine.none with numWarps := some x } s0).cliOptionsSpecified
        = true) ∧
    (∀ x : Int, x ≠ 16 →
      (initDefaultValues { CommandLine.none with reducSize := some x } s0).cliOptionsSpecified
        = true) ∧
    (∀ x : Bool, x ≠ true →
      (initDefaultValues
        { CommandLine.none with useAsyncCopies := some x } s0).cliOptionsSpecified = true) ∧
    (∀ x : Bool, x ≠ true →
      (initDefaultValues
        { CommandLine.none with useMmaSync := some x } s0).cliOptionsSpecified = true) ∧
    (∀ x : Int, x ≠ 3 →
      (initDefaultValues
        { CommandLine.none with pipelineDepth := some x } s0).cliOptionsSpecified = true) := by
  refine ⟨?_, ?_, ?_, ?_, ?_, ?_, ?_⟩ <;>
    intro x hx <;>
    simp [initDefaultValues, CommandLine.none, clBlockTileSizes, clReductionTileSize,
      clNumThreads, clNumWarps, clUseAsyncCopies, clUseMmaSync, clPipelineDepth,
      ClList.elems, ClList.isDefaultAssigned, ClOpt.get, ClOpt.getDefault, hx]

/-- Witness of C6: a reduction tile size of 32 instead of 16 on a fresh object. -/
theorem single_override_sets_cliOptionsSpecified_witness :
    (32 : Int) ≠ 16 ∧
    (initDefaultValues { CommandLine.none with reducSize := some 32 }
      MatmulStrategy.blank).cliOptionsSpecified = true :=
  ⟨by decide,
   (single_override_sets_cliOptionsSpecified MatmulStrategy.blank).2.2.2.1 32 (by decide)⟩

/-- C7 as stated fails: giving the block tile sizes on the command line with
exactly their default value leaves every tunable equal to its default, as in
`MatmulStrategy.defaults` whose flag is false, and yet sets
`cliOptionsSpecified`. -/
theorem explicit_default_list_sets_cliOptionsSpecified :
    (initDefaultValues explicitDefaultBlkSizes MatmulStrategy.blank).blockTileSizes
      = [128, 128, 1] ∧
    { initDefaultValues explicitDefaultBlkSizes MatmulStrategy.blank with
        cliOptionsSpecified := false } = MatmulStrategy.defaults ∧
    MatmulStrategy.defaults.cliOptionsSpecified = false ∧
    (initDefaultValues explicitDefaultBlkSizes MatmulStrategy.blank).cliOptionsSpecified
      = true := by
  decide

/-- C7 amended: on a fresh object, `cliOptionsSpecified` is true exactly when one
of the three list options (block tile sizes, number of threads, number of
warps) occurs on the command line, whatever its value, or one of the four
scalar tunables differs from its compiled-in default. -/
theorem cliOptionsSpecified_iff (cmd : CommandLine) (s0 : MatmulStrategy)
    (h0 : s0.cliOptionsSpecified = false) :
    (initDefaultValues cmd s0).cliOptionsSpecified = true ↔
      (cmd.blkSizes.isSome = true ∨ cmd.numThreads.isSome = true ∨
        cmd.numWarps.isSome = true ∨
        (initDefaultValues cmd s0).reductionTileSize ≠ 16 ∨
        (initDefaultValues cmd s0).useAsyncCopies ≠ true ∨
        (initDefaultValues cmd s0).useMmaSync ≠ true ∨
        (initDefaultValues cmd s0).pipelineDepth ≠ 3) := by
  obtain ⟨b, r, t, w, a, y, p⟩ := cmd
  cases b <;> cases t <;> cases w <;>
    simp [initDefaultValues, clBlockTileSizes, clReductionTileSize,
      clNumThreads, clNumWarps, clUseAsyncCopies, clUseMmaSync, clPipelineDepth,
      ClList.isDefaultAssigned, ClOpt.get, ClOpt.getDefault, h0, or_assoc]

/-- Witness of the amended C7 on a fresh object and the command line that gives
the block tile sizes explicitly. -/
theorem cliOptionsSpecified_iff_witness :
    MatmulStrategy.blank.cliOptionsSpecified = false ∧
    ((initDefaultValues explicitDefaultBlkSizes MatmulStrategy.blank).cliOptionsSpecified
        = true ↔
      (explicitDefaultBlkSizes.blkSizes.isSome = true ∨
        explicitDefaultBlkSizes.numThreads.isSome = true ∨
        explicitDefaultBlkSizes.numWarps.isSome = true ∨
        (initDefaultValues explicitDefaultBlkSizes MatmulStrategy.blank).reductionTileSize
          ≠ 16 ∨
        (initDefaultValues explicitDefaultBlkSizes MatmulStrategy.blank).useAsyncCopies
          ≠ true ∨
        (initDefaultValues explicitDefaultBlkSizes MatmulStrategy.blank).useMmaSync ≠ true ∨
        (initDefaultValues explicitDefaultBlkSizes MatmulStrategy.blank).pipelineDepth
          ≠ 3)) :=
  ⟨rfl, cliOptionsSpecified_iff explicitDefaultBlkSizes MatmulStrategy.blank rfl⟩

/-! ## Pipelining calls (C1) and the validity gate (C2) -/

/-- C1 as stated fails: in a build with assertions, on a configuration that
`validate` rejects, asynchronous copies are on and the pipeline depth is 3, yet
no pipelining call is issued, since the run is aborted at the assertion. -/
theorem pipelining_skipped_on_invalid_config :
    invalidSample.useAsyncCopies = true ∧ invalidSample.pipelineDepth > 1 ∧
    (sampleMethods true).validate invalidSample = false ∧
    pipeliningCalls (issuedCalls assertsBuild (sampleMethods true) 0 invalidSample 1) = [] := by
  refine ⟨rfl, by decide, by decide, ?_⟩
  rw [issuedCalls, assertsBuild, invalid_run_aborts (sampleMethods true) 0 1 invalidSample
    false (by decide)]
  rfl

/-- C1 amended: for every configuration that `validate` accepts, the run
completes and its pipelining calls are: none when `useAsyncCopies` is false;
the async-copy conversion alone when it is true and `pipelineDepth <= 1`;
multi-buffering, async-copy conversion, software pipelining, in this order,
when it is true and `pipelineDepth > 1`. -/
theorem pipelining_calls_of_valid_config (mode : BuildMode) (m : StrategyMethods)
    (v n : Handle) (s : MatmulStrategy) (hv : m.validate s = true) :
    completes mode m v s n = true ∧
    (s.useAsyncCopies = false → pipeliningCalls (issuedCalls mode m v s n) = []) ∧
    (s.useAsyncCopies = true → s.pipelineDepth ≤ 1 →
      kinds (pipeliningCalls (issuedCalls mode m v s n)) = [.buildConvertToAsyncCopies]) ∧
    (s.useAsyncCopies = true → s.pipelineDepth > 1 →
      kinds (pipeliningCalls (issuedCalls mode m v s n)) =
        [.buildMultiBuffering, .buildConvertToAsyncCopies,
         .buildPipelineSharedMemoryCopies]) := by
  refine ⟨completes_of_valid mode m v n s hv, ?_, ?_, ?_⟩
  · intro hu
    rw [issuedCalls_closed_form mode m v n s hv, hu]
    cases (!mode.ndebug && mode.debugFlag) <;> cases m.alignedRes s <;>
      cases decide (s.pipelineDepth > 1) <;> rfl
  · intro hu hp
    have hd : decide (s.pipelineDepth > 1) = false := by simpa using hp
    rw [issuedCalls_closed_form mode m v n s hv, hu, hd]
    cases (!mode.ndebug && mode.debugFlag) <;> cases m.alignedRes s <;> rfl
  · intro hu hp
    have hd : decide (s.pipelineDepth > 1) = true := by simpa using hp
    rw [issuedCalls_closed_form mode m v n s hv, hu, hd]
    cases (!mode.ndebug && mode.debugFlag) <;> cases m.alignedRes s <;> rfl

/-- Witness of the amended C1 on the default configuration (asynchronous copies
on, pipeline depth 3). -/
theorem pipelining_calls_of_valid_config_witness :
    (sampleMethods true).validate MatmulStrategy.defaults = true ∧
    (completes assertsBuild (sampleMethods true) 0 MatmulStrategy.defaults 1 = true ∧
    (MatmulStrategy.defaults.useAsyncCopies = false →
      pipeliningCalls
        (issuedCalls assertsBuild (sampleMethods true) 0 MatmulStrategy.defaults 1) = []) ∧
    (MatmulStrategy.defaults.useAsyncCopies = true →
      MatmulStrategy.defaults.pipelineDepth ≤ 1 →
      kinds (pipeliningCalls
        (issuedCalls assertsBuild (sampleMethods true) 0 MatmulStrategy.defaults 1)) =
        [.buildConvertToAsyncCopies]) ∧
    (MatmulStrategy.defaults.useAsyncCopies = true →
      MatmulStrategy.defaults.pipelineDepth > 1 →
      kinds (pipeliningCalls
        (issuedCalls assertsBuild (sampleMethods true) 0 MatmulStrategy.defaults 1)) =
        [.buildMultiBuffering, .buildConvertToAsyncCopies,
         .buildPipelineSharedMemoryCopies])) :=
  ⟨by decide,
   pipelining_calls_of_valid_config assertsBuild (sampleMethods true) 0 1
     MatmulStrategy.defaults (by decide)⟩

/-- The three configurations named by the spec for C1, each valid: 0, 1 and 3
pipelining calls. -/
theorem pipelining_call_counts_on_spec_examples :
    (pipeliningCalls (issuedCalls assertsBuild (sampleMethods true) 0
      { MatmulStrategy.defaults with useAsyncCopies := false } 1)).length = 0 ∧
    (pipeliningCalls (issuedCalls assertsBuild (sampleMethods true) 0
      { MatmulStrategy.defaults with useAsyncCopies := true, pipelineDepth := 1 } 1)).length
      = 1 ∧
    (pipeliningCalls (issuedCalls assertsBuild (sampleMethods true) 0
      { MatmulStrategy.defaults with useAsyncCopies := true, pipelineDepth := 3 } 1)).length
      = 3 := by
  decide

/-- With assertions enabled C2 holds: on a configuration that `validate` rejects
the run is aborted, `validate` is the first call and no transformation call is
issued. -/
theorem invalid_config_not_lowered_with_assertions (m : StrategyMethods) (v n : Handle)
    (s : MatmulStrategy) (df : Bool) (hv : m.validate s = false) :
    completes { ndebug := false, debugFlag := df } m v s n = false ∧
    kinds (issuedCalls { ndebug := false, debugFlag := df } m v s n) = [.validate, .print] ∧
    transformationCalls (issuedCalls { ndebug := false, debugFlag := df } m v s n) = [] := by
  rw [completes, issuedCalls, invalid_run_aborts m v n s df hv]
  exact ⟨rfl, rfl, rfl⟩

/-- In a build with `NDEBUG` the validity check stops nothing: whatever
`validate` answers, the run completes and issues the same transformation calls,
the tensor phase, `buildBufferize` and the buffer phase. -/
theorem ndebug_run_ignores_validate (m : StrategyMethods) (v n : Handle)
    (s : MatmulStrategy) (df : Bool) :
    completes { ndebug := true, debugFlag := df } m v s n = true ∧
    transformationCalls (issuedCalls { ndebug := true, debugFlag := df } m v s n) =
      tensorPhaseCalls m v s (m.alignedRes s) n ++
      [{ op := .buildBufferize v,
         results := [handleAfterHoist (m.alignedRes s) n + 7] }] ++
      bufferPhaseCalls s s.useAsyncCopies (decide (s.pipelineDepth > 1))
        (handleAfterHoist (m.alignedRes s) n + 7) := by
  rw [completes, issuedCalls, run_closed_form _ m v n s (Or.inr rfl)]
  cases m.validate s <;> cases m.alignedRes s <;> cases s.useAsyncCopies <;>
    cases decide (s.pipelineDepth > 1) <;> exact ⟨rfl, rfl⟩

/-- C2 fails in a build with `NDEBUG`: the assertion is compiled out, so on the
configuration `invalidSample`, which `validate` rejects, the run prints the
configuration and then issues every transformation step, up to the cleanup. -/
theorem invalid_config_lowered_under_ndebug :
    (sampleMethods true).validate invalidSample = false ∧
    completes releaseBuild (sampleMethods true) 0 invalidSample 1 = true ∧
    kinds (issuedCalls releaseBuild (sampleMethods true) 0 invalidSample 1) =
      [.validate, .print, .registerMatchCallbacksOp, .unpackRegisteredMatchCallback,
       .buildTileFuseDistToForallWithTileSizes,
       .populateWorkgroupCountRegionUsingNumThreadsSliceOp,
       .buildTileFuseToScfFor, .buildPad,
       .buildCanonicalizationAndEnablingTransforms, .buildDistributeMatmulCopies,
       .buildTileFuseDistToForallWithNumThreads, .buildTileFuseDistToForallWithNumThreads,
       .buildMatmulVectorization, .buildBufferize, .matchOp, .buildMapToBlockAndThreads,
       .eliminateGpuBarriersOp, .buildConvertToTensorCoreOp, .buildMultiBuffering,
       .buildConvertToAsyncCopies, .buildPipelineSharedMemoryCopies,
       .buildLowerVectorMasksAndCleanup] ∧
    (transformationCalls
      (issuedCalls releaseBuild (sampleMethods true) 0 invalidSample 1)).length = 20 := by
  decide

/-! ## The hoist and the fill handle (C3) -/

/-- C3 as stated fails: on the default configuration with an aligned result,
the match returns handle 1 for the accumulator initialization, while the fill
handle given to the warp-level distribution is handle 6, the fused fill
returned by the block distribution. -/
theorem aligned_fill_is_not_the_matched_fill :
    (sampleMethods true).alignedRes MatmulStrategy.defaults = true ∧
    (sampleMethods true).validate MatmulStrategy.defaults = true ∧
    resultOf .unpackRegisteredMatchCallback 0
      (issuedCalls assertsBuild (sampleMethods true) 0 MatmulStrategy.defaults 1) = some 1 ∧
    warpDistributionRoots
      (issuedCalls assertsBuild (sampleMethods true) 0 MatmulStrategy.defaults 1) = [8, 6] ∧
    resultOf .buildTileFuseDistToForallWithTileSizes 2
      (issuedCalls assertsBuild (sampleMethods true) 0 MatmulStrategy.defaults 1) = some 6 := by
  decide

/-- C3 amended: for every valid configuration the hoist is issued once when
`alignedRes()` is false and not at all when it is true; the warp-level
distribution is issued on the padded matmul and then on the fill handle, which
is the fused fill handle returned by the block distribution (the front of
`resultingFusedOpsHandles`, a handle different from the one the match returned)
when `alignedRes()` is true, and the handle returned by the hoist when it is
false. -/
theorem hoist_iff_unaligned_and_fill_handle (mode : BuildMode) (m : StrategyMethods)
    (v n : Handle) (s : MatmulStrategy) (hv : m.validate s = true) :
    (callsOfKind .buildHoistOutputPaddingOp (issuedCalls mode m v s n)).length =
      (if m.alignedRes s = true then 0 else 1) ∧
    (warpDistributionRoots (issuedCalls mode m v s n)).map some =
      [resultOf .buildPad 0 (issuedCalls mode m v s n),
       if m.alignedRes s = true then
         resultOf .buildTileFuseDistToForallWithTileSizes 2 (issuedCalls mode m v s n)
       else resultOf .buildHoistOutputPaddingOp 0 (issuedCalls mode m v s n)] ∧
    resultOf .unpackRegisteredMatchCallback 0 (issuedCalls mode m v s n) = some n ∧
    resultOf .buildTileFuseDistToForallWithTileSizes 2 (issuedCalls mode m v s n) =
      some (n + 5) ∧
    resultOf .buildTileFuseDistToForallWithTileSizes 2 (issuedCalls mode m v s n) ≠
      resultOf .unpackRegisteredMatchCallback 0 (issuedCalls mode m v s n) := by
  have h1 : resultOf .unpackRegisteredMatchCallback 0 (issuedCalls mode m v s n) = some n := by
    rw [issuedCalls_closed_form mode m v n s hv]
    cases (!mode.ndebug && mode.debugFlag) <;> rfl
  have h2 : resultOf .buildTileFuseDistToForallWithTileSizes 2 (issuedCalls mode m v s n) =
      some (n + 5) := by
    rw [issuedCalls_closed_form mode m v n s hv]
    cases (!mode.ndebug && mode.debugFlag) <;> rfl
  refine ⟨?_, ?_, h1, h2, ?_⟩
  · rw [issuedCalls_closed_form mode m v n s hv]
    cases (!mode.ndebug && mode.debugFlag) <;> cases m.alignedRes s <;>
      cases s.useAsyncCopies <;> cases decide (s.pipelineDepth > 1) <;> rfl
  · rw [issuedCalls_closed_form mode m v n s hv]
    cases (!mode.ndebug && mode.debugFlag) <;> cases m.alignedRes s <;>
      cases s.useAsyncCopies <;> cases decide (s.pipelineDepth > 1) <;> rfl
  · rw [h1, h2]
    simp

/-- Witness of the amended C3 on the default configuration with an aligned
result. -/
theorem hoist_iff_unaligned_and_fill_handle_witness :
    (sampleMethods true).validate MatmulStrategy.defaults = true ∧
    (callsOfKind .buildHoistOutputPaddingOp
      (issuedCalls assertsBuild (sampleMethods true) 0 MatmulStrategy.defaults 1)).length =
      (if (sampleMethods true).alignedRes MatmulStrategy.defaults = true then 0 else 1) :=
  ⟨by decide,
   (hoist_iff_unaligned_and_fill_handle assertsBuild (sampleMethods true) 0 1
     MatmulStrategy.defaults (by decide)).1⟩

/-! ## Handles across materialization (C4) -/

/-- C4: for every valid configuration, run from a builder in which the incoming
variant handle already exists, `buildBufferize` is issued and returns a handle;
the call right after it is the match of `func.func` on that returned handle;
and no operand of any call after `buildBufferize` is the incoming variant
handle or a handle returned by a call issued before `buildBufferize`. -/
theorem no_stale_handle_after_bufferize (mode : BuildMode) (m : StrategyMethods)
    (v n : Handle) (s : MatmulStrategy) (hv : m.validate s = true) (hfresh : v < n) :
    (resultOf .buildBufferize 0 (issuedCalls mode m v s n)).isSome = true ∧
    ((callsAfter .buildBufferize (issuedCalls mode m v s n)).head?).map (fun c => c.op) =
      (resultOf .buildBufferize 0 (issuedCalls mode m v s n)).map
        (fun h => Op.matchOp h "func.func") ∧
    (∀ c ∈ callsAfter .buildBufferize (issuedCalls mode m v s n), ∀ h ∈ c.op.operands,
      h ≠ v ∧
      h ∉ handlesReturned (callsBefore .buildBufferize (issuedCalls mode m v s n))) := by
  obtain ⟨hA, hB⟩ := sections_around_bufferize mode m v n s hv
  refine ⟨?_, ?_, ?_⟩
  · rw [issuedCalls_closed_form mode m v n s hv]
    cases (!mode.ndebug && mode.debugFlag) <;> cases m.alignedRes s <;> rfl
  · rw [issuedCalls_closed_form mode m v n s hv]
    cases (!mode.ndebug && mode.debugFlag) <;> cases m.alignedRes s <;>
      cases s.useAsyncCopies <;> cases decide (s.pipelineDepth > 1) <;> rfl
  · rw [hA, hB]
    intro c hc h hh
    have h1 := bufferPhase_operands_bounded s _ _ _ c hc h hh
    have h3 := (handleAfterHoist_bounds (m.alignedRes s) n).1
    refine ⟨?_, fun hmem => ?_⟩
    · simp only [Handle] at *
      omega
    · have h2 := (tensorPhase_handles_bounded m v n s _ h hmem).2
      simp only [Handle] at *
      omega

/-- Witness of C4 on the default configuration, incoming variant handle 0 and
next free handle 1. -/
theorem no_stale_handle_after_bufferize_witness :
    (sampleMethods true).validate MatmulStrategy.defaults = true ∧ (0 : Handle) < 1 ∧
    ((resultOf .buildBufferize 0
      (issuedCalls assertsBuild (sampleMethods true) 0 MatmulStrategy.defaults 1)).isSome
        = true ∧
    ((callsAfter .buildBufferize
      (issuedCalls assertsBuild (sampleMethods true) 0 MatmulStrategy.defaults 1)).head?).map
        (fun c => c.op) =
      (resultOf .buildBufferize 0
        (issuedCalls assertsBuild (sampleMethods true) 0 MatmulStrategy.defaults 1)).map
        (fun h => Op.matchOp h "func.func") ∧
    (∀ c ∈ callsAfter .buildBufferize
        (issuedCalls assertsBuild (sampleMethods true) 0 MatmulStrategy.defaults 1),
      ∀ h ∈ c.op.operands,
      h ≠ 0 ∧
      h ∉ handlesReturned (callsBefore .buildBufferize
        (issuedCalls assertsBuild (sampleMethods true) 0 MatmulStrategy.defaults 1)))) :=
  ⟨by decide, by decide,
   no_stale_handle_after_bufferize assertsBuild (sampleMethods true) 0 1
     MatmulStrategy.defaults (by decide) (by decide)⟩

/-! ## Order of the phases (C8, C9) -/

/-- C8: for every valid configuration the run completes and its transformation
calls are, in order: match (callback registration and unpacking), block
distribution, workgroup-count population, reduction tiling, padding, the hoist
when the result is not aligned, canonicalization, copy distribution, warp-level
distribution twice (of the padded matmul, then of the fill), vectorization,
bufferize, function match, map to blocks and threads, barrier elimination,
tensor-core conversion, the pipelining calls selected by `useAsyncCopies` and
`pipelineDepth`, cleanup. Barrier elimination is not issued before bufferize,
and bufferize is issued before it. -/
theorem phases_issued_once_in_order (mode : BuildMode) (m : StrategyMethods)
    (v n : Handle) (s : MatmulStrategy) (hv : m.validate s = true) :
    completes mode m v s n = true ∧
    kinds (transformationCalls (issuedCalls mode m v s n)) =
      [.registerMatchCallbacksOp, .unpackRegisteredMatchCallback,
       .buildTileFuseDistToForallWithTileSizes,
       .populateWorkgroupCountRegionUsingNumThreadsSliceOp,
       .buildTileFuseToScfFor, .buildPad] ++
      (if m.alignedRes s = true then [] else [.buildHoistOutputPaddingOp]) ++
      [.buildCanonicalizationAndEnablingTransforms, .buildDistributeMatmulCopies,
       .buildTileFuseDistToForallWithNumThreads, .buildTileFuseDistToForallWithNumThreads,
       .buildMatmulVectorization, .buildBufferize, .matchOp, .buildMapToBlockAndThreads,
       .eliminateGpuBarriersOp, .buildConvertToTensorCoreOp] ++
      (if s.useAsyncCopies = true then
        (if s.pipelineDepth > 1 then [.buildMultiBuffering] else []) ++
        [.buildConvertToAsyncCopies] ++
        (if s.pipelineDepth > 1 then [.buildPipelineSharedMemoryCopies] else [])
       else []) ++
      [.buildLowerVectorMasksAndCleanup] ∧
    (warpDistributionRoots (issuedCalls mode m v s n)).map some =
      [resultOf .buildPad 0 (issuedCalls mode m v s n),
       if m.alignedRes s = true then
         resultOf .buildTileFuseDistToForallWithTileSizes 2 (issuedCalls mode m v s n)
       else resultOf .buildHoistOutputPaddingOp 0 (issuedCalls mode m v s n)] ∧
    Kind.eliminateGpuBarriersOp ∉
      kinds (callsBefore .buildBufferize (issuedCalls mode m v s n)) ∧
    Kind.buildBufferize ∈
      kinds (callsBefore .eliminateGpuBarriersOp (issuedCalls mode m v s n)) := by
  refine ⟨completes_of_valid mode m v n s hv, ?_⟩
  rw [issuedCalls_closed_form mode m v n s hv]
  by_cases hp : s.pipelineDepth > 1 <;>
    simp only [hp, decide_True, decide_False, ↓reduceIte] <;>
    cases (!mode.ndebug && mode.debugFlag) <;> cases m.alignedRes s <;>
    cases s.useAsyncCopies <;>
    exact ⟨rfl, rfl, not_mem_of_elem_eq_false (by rfl), List.mem_of_elem_eq_true (by rfl)⟩

/-- Witness of C8 on the default configuration: the run completes. -/
theorem phases_issued_once_in_order_witness :
    (sampleMethods true).validate MatmulStrategy.defaults = true ∧
    completes assertsBuild (sampleMethods true) 0 MatmulStrategy.defaults 1 = true :=
  ⟨by decide,
   (phases_issued_once_in_order assertsBuild (sampleMethods true) 0 1
     MatmulStrategy.defaults (by decide)).1⟩

/-- C9: for every valid configuration the reduction tiling is issued exactly
once, on the tiled matmul handle returned by the block distribution, with no
op to fuse, tile sizes `[0, 0, reductionTileSize]` and canonicalization off;
canonicalization is issued exactly once in the run, it is the last call between
the padding and the copy distribution, preceded there only by the hoist when
the hoist is issued, and it is not issued before the padding. -/
theorem reduction_tiling_and_canonicalization (mode : BuildMode) (m : StrategyMethods)
    (v n : Handle) (s : MatmulStrategy) (hv : m.validate s = true) :
    resultOf .buildTileFuseDistToForallWithTileSizes 1 (issuedCalls mode m v s n) =
      some (n + 4) ∧
    callsOfKind .buildTileFuseToScfFor (issuedCalls mode m v s n) =
      [{ op := .buildTileFuseToScfFor v (n + 4) [] [0, 0, s.reductionTileSize] false,
         results := [n + 6] }] ∧
    callsOfKind .buildCanonicalizationAndEnablingTransforms (issuedCalls mode m v s n) =
      [{ op := .buildCanonicalizationAndEnablingTransforms v, results := [] }] ∧
    kinds (callsBefore .buildDistributeMatmulCopies
        (callsAfter .buildPad (issuedCalls mode m v s n))) =
      (if m.alignedRes s = true then [] else [.buildHoistOutputPaddingOp]) ++
        [.buildCanonicalizationAndEnablingTransforms] ∧
    Kind.buildCanonicalizationAndEnablingTransforms ∉
      kinds (callsBefore .buildPad (issuedCalls mode m v s n)) := by
  rw [issuedCalls_closed_form mode m v n s hv]
  cases (!mode.ndebug && mode.debugFlag) <;> cases m.alignedRes s <;>
    cases s.useAsyncCopies <;> cases decide (s.pipelineDepth > 1) <;>
    exact ⟨rfl, rfl, rfl, rfl, not_mem_of_elem_eq_false (by rfl)⟩

/-- Witness of C9 on the default configuration: the tiled matmul handle is
handle 5. -/
theorem reduction_tiling_and_canonicalization_witness :
    (sampleMethods true).validate MatmulStrategy.defaults = true ∧
    resultOf .buildTileFuseDistToForallWithTileSizes 1
      (issuedCalls assertsBuild (sampleMethods true) 0 MatmulStrategy.defaults 1) =
      some (1 + 4) :=
  ⟨by decide,
   (reduction_tiling_and_canonicalization assertsBuild (sampleMethods true) 0 1
     MatmulStrategy.defaults (by decide)).1⟩

/-! ## Function handles after materialization (C10) -/

/-- In the buffer phase, the function handle given to a step that returns a
replacement is not an operand of any later call. -/
theorem bufferPhase_no_reuse (s : MatmulStrategy) (async deep : Bool) (w : Handle) :
    ∀ k ∈ [Kind.buildMapToBlockAndThreads, Kind.eliminateGpuBarriersOp,
        Kind.buildConvertToTensorCoreOp, Kind.buildConvertToAsyncCopies],
      ∀ c ∈ callsOfKind k (bufferPhaseCalls s async deep w), ∀ h ∈ c.op.operands,
        ∀ c2 ∈ callsAfter k (bufferPhaseCalls s async deep w), h ∉ c2.op.operands := by
  intro k hk
  simp only [List.mem_cons, List.mem_singleton, List.not_mem_nil, or_false] at hk
  cases async <;> cases deep <;> rcases hk with rfl | rfl | rfl | rfl <;>
    simp only [bufferPhaseCalls, callsOfKind, callsAfter, Op.kind, Op.operands,
      List.filter_cons, List.filter_nil, List.dropWhile_cons, List.dropWhile_nil,
      List.cons_append, List.nil_append, List.append_nil, List.drop_succ_cons, List.drop_zero,
      List.drop_nil, List.mem_cons, List.mem_singleton, List.not_mem_nil,
      ↓reduceIte, reduceCtorEq, beq_self_eq_true, bne_self_eq_false, beq_iff_eq, bne_iff_ne,
      ne_eq, not_false_eq_true, not_true_eq_false, forall_eq_or_imp, forall_eq, or_false,
      false_or, IsEmpty.forall_iff, implies_true, and_self, and_true, true_and,
      Bool.false_eq_true, Bool.true_eq_false, decide_True, decide_False, decide_not,
      Bool.not_true, Bool.not_false, Nat.add_right_cancel_iff, Nat.add_left_cancel_iff,
      Nat.reduceEqDiff, not_or] <;> simp

/-- The steps that replace the function handle sit in the buffer phase: their
calls, and the calls after them, can be read off the buffer phase alone. -/
theorem replacing_steps_in_bufferPhase (mode : BuildMode) (m : StrategyMethods)
    (v n : Handle) (s : MatmulStrategy) (hv : m.validate s = true) :
    ∀ k ∈ [Kind.buildMapToBlockAndThreads, Kind.eliminateGpuBarriersOp,
        Kind.buildConvertToTensorCoreOp, Kind.buildConvertToAsyncCopies],
      callsOfKind k (issuedCalls mode m v s n) =
        callsOfKind k (bufferPhaseCalls s s.useAsyncCopies (decide (s.pipelineDepth > 1))
          (handleAfterHoist (m.alignedRes s) n + 7)) ∧
      callsAfter k (issuedCalls mode m v s n) =
        callsAfter k (bufferPhaseCalls s s.useAsyncCopies (decide (s.pipelineDepth > 1))
          (handleAfterHoist (m.alignedRes s) n + 7)) := by
  intro k hk
  rw [issuedCalls_closed_form mode m v n s hv]
  simp only [List.mem_cons, List.mem_singleton, List.not_mem_nil, or_false] at hk
  rcases hk with rfl | rfl | rfl | rfl <;>
    cases (!mode.ndebug && mode.debugFlag) <;> cases m.alignedRes s <;>
    cases s.useAsyncCopies <;> cases decide (s.pipelineDepth > 1) <;>
    exact ⟨rfl, rfl⟩

/-- C10: for every valid configuration, the function handle given to map to
blocks and threads, barrier elimination, tensor-core conversion or async-copy
conversion is not an operand of any call issued after that step; each of these
steps receives the handle returned by the previous one (the function match,
map, barrier elimination, tensor-core conversion); multi-buffering receives the
handle returned by the tensor-core conversion, software pipelining the one
returned by the async-copy conversion, and the cleanup the one returned by the
async-copy conversion when `useAsyncCopies` is true and by the tensor-core
conversion otherwise. -/
theorem function_handle_replaced_at_each_step (mode : BuildMode) (m : StrategyMethods)
    (v n : Handle) (s : MatmulStrategy) (hv : m.validate s = true) :
    (∀ k ∈ [Kind.buildMapToBlockAndThreads, Kind.eliminateGpuBarriersOp,
        Kind.buildConvertToTensorCoreOp, Kind.buildConvertToAsyncCopies],
      ∀ c ∈ callsOfKind k (issuedCalls mode m v s n), ∀ h ∈ c.op.operands,
        ∀ c2 ∈ callsAfter k (issuedCalls mode m v s n), h ∉ c2.op.operands) ∧
    (callsOfKind .buildMapToBlockAndThreads (issuedCalls mode m v s n)).map
        (fun c => c.op.operands.map some) =
      [[resultOf .matchOp 0 (issuedCalls mode m v s n)]] ∧
    (callsOfKind .eliminateGpuBarriersOp (issuedCalls mode m v s n)).map
        (fun c => c.op.operands.map some) =
      [[resultOf .buildMapToBlockAndThreads 0 (issuedCalls mode m v s n)]] ∧
    (callsOfKind .buildConvertToTensorCoreOp (issuedCalls mode m v s n)).map
        (fun c => c.op.operands.map some) =
      [[resultOf .eliminateGpuBarriersOp 0 (issuedCalls mode m v s n)]] ∧
    (∀ c ∈ callsOfKind .buildConvertToAsyncCopies (issuedCalls mode m v s n),
      c.op.operands.map some =
        [resultOf .buildConvertToTensorCoreOp 0 (issuedCalls mode m v s n)]) ∧
    (∀ c ∈ callsOfKind .buildMultiBuffering (issuedCalls mode m v s n),
      c.op.operands.map some =
        [resultOf .buildConvertToTensorCoreOp 0 (issuedCalls mode m v s n)]) ∧
    (∀ c ∈ callsOfKind .buildPipelineSharedMemoryCopies (issuedCalls mode m v s n),
      c.op.operands.map some =
        [resultOf .buildConvertToAsyncCopies 0 (issuedCalls mode m v s n)]) ∧
    (callsOfKind .buildLowerVectorMasksAndCleanup (issuedCalls mode m v s n)).map
        (fun c => c.op.operands.map some) =
      [[if s.useAsyncCopies = true then
          resultOf .buildConvertToAsyncCopies 0 (issuedCalls mode m v s n)
        else resultOf .buildConvertToTensorCoreOp 0 (issuedCalls mode m v s n)]] := by
  refine ⟨?_, ?_⟩
  · intro k hk c hc h hh c2 hc2
    obtain ⟨e1, e2⟩ := replacing_steps_in_bufferPhase mode m v n s hv k hk
    rw [e2] at hc2
    rw [e1] at hc
    exact bufferPhase_no_reuse s _ _ _ k hk c hc h hh c2 hc2
  · rw [issuedCalls_closed_form mode m v n s hv]
    cases (!mode.ndebug && mode.debugFlag) <;> cases m.alignedRes s <;>
      cases s.useAsyncCopies <;> cases decide (s.pipelineDepth > 1) <;>
      simp only [callsOfKind, resultOf] <;>
      refine ⟨rfl, rfl, rfl, ?_, ?_, ?_, rfl⟩ <;>
      intro c hc <;>
      first
        | exact absurd hc (List.not_mem_nil c)
        | (rw [List.mem_singleton.mp hc]; rfl)

/-- Witness of C10 on the default configuration: the map step receives the
handle returned by the function match. -/
theorem function_handle_replaced_at_each_step_witness :
    (sampleMethods true).validate MatmulStrategy.defaults = true ∧
    (callsOfKind .buildMapToBlockAndThreads
        (issuedCalls assertsBuild (sampleMethods true) 0 MatmulStrategy.defaults 1)).map
        (fun c => c.op.operands.map some) =
      [[resultOf .matchOp 0
        (issuedCalls assertsBuild (sampleMethods true) 0 MatmulStrategy.defaults 1)]] :=
  ⟨by decide,
   (function_handle_replaced_at_each_step assertsBuild (sampleMethods true) 0 1
     MatmulStrategy.defaults (by decide)).2.1⟩

end MatmulTensorCore
